import Mathlib

/-!
Verification of `examples/DoReFa-Net/zf-dorefa_pad_sim.py`.

This file is a shallow embedding, in Lean 4, of the author-written logic of
the script: command-line parsing of the `--dorefa` bit-width string, the
driver control flow of `__main__` (inference branch versus training branch),
the `run_image` inference loop with its assertions and activation dumps, the
`get_data` pipeline composition, and the temporary monkey-patch of
`tf.get_variable` performed by `Model._build_graph`.

External library behaviour (tensorflow, cv2, numpy file IO, the tensorpack
framework) is modelled either abstractly through an `Env` record of
uninterpreted functions, or — where a claim depends on it — by definitions
whose doc comments start with `Modelled from the spec:`.
-/

/-! ## Python string primitives

The script uses `str.split(',')`, `str.endswith`, and `int(...)`.  These are
re-implemented here structurally, following Python's documented semantics,
so that all definitions compute by kernel reduction.
-/

/-- Python `str.split(',')` on a list of characters: splitting the empty
string yields one empty piece, and every comma starts a new piece. -/
def splitCommaCh : List Char → List (List Char)
  | [] => [[]]
  | c :: rest =>
    let r := splitCommaCh rest
    if c = ',' then [] :: r
    else
      match r with
      | [] => [[c]]
      | h :: t => (c :: h) :: t

/-- Python `s.split(',')`. -/
def pySplitComma (s : String) : List String :=
  (splitCommaCh s.data).map (fun l => String.mk l)

/-- Python `s.endswith(suffix)`: a plain suffix test. -/
def pyEndsWith (s suf : String) : Bool :=
  List.isSuffixOf suf.data s.data

/-- Surrounding-whitespace removal, as `int(...)` performs before parsing. -/
def pyStripWs (l : List Char) : List Char :=
  ((l.dropWhile Char.isWhitespace).reverse.dropWhile Char.isWhitespace).reverse

/-- Value of a decimal digit list (most significant first); `none` when the
list is empty or contains a non-digit. -/
def digitsToNat (l : List Char) : Option Nat :=
  if l = [] ∨ ¬ l.all Char.isDigit then none
  else some (l.foldl (fun acc c => 10 * acc + (c.toNat - 48)) 0)

/-- Model of Python `int(s)` on a decimal string: optional surrounding
whitespace, an optional sign, then one or more digits; anything else raises
`ValueError`, modelled as `none`. -/
def pyInt (s : String) : Option Int :=
  match pyStripWs s.data with
  | '+' :: rest => (digitsToNat rest).map (fun n => (n : Int))
  | '-' :: rest => (digitsToNat rest).map (fun n => -(n : Int))
  | l => (digitsToNat l).map (fun n => (n : Int))

/-! ## `--dorefa` parsing

Source: `BITW, BITA, BITG = map(int, args.dorefa.split(','))` — split on
commas, convert each piece with `int`, and tuple-unpack exactly three
values; any failure (a bad piece or a piece count other than three) raises
and aborts the script. -/

/-- The default value of the `--dorefa` flag. -/
def dorefaDefault : String := "1,2,4"

/-- `BITW, BITA, BITG = map(int, args.dorefa.split(','))`, with `none`
standing for the raised `ValueError`. -/
def parseDorefa (s : String) : Option (Int × Int × Int) :=
  match (pySplitComma s).map pyInt with
  | [some w, some a, some g] => some (w, a, g)
  | _ => none

/-! ## Theorems for claim C1 -/

/-- `parseDorefa` succeeds with `(w, a, g)` exactly when mapping `int` over
the comma-split pieces yields those three values. -/
theorem parseDorefa_eq_some_iff {s : String} {w a g : Int} :
    parseDorefa s = some (w, a, g) ↔
      (pySplitComma s).map pyInt = [some w, some a, some g] := by
  constructor
  · intro h
    unfold parseDorefa at h
    split at h
    · rename_i heq
      simp only [Option.some.injEq, Prod.mk.injEq] at h
      obtain ⟨rfl, rfl, rfl⟩ := h
      exact heq
    · exact absurd h (by simp)
  · intro h
    unfold parseDorefa
    rw [h]

/-- A list maps under `pyInt` to three given options exactly when it has
three elements whose `pyInt` values are those options. -/
theorem map_pyInt_eq_three {l : List String} {o1 o2 o3 : Option Int} :
    l.map pyInt = [o1, o2, o3] ↔
      ∃ p1 p2 p3, l = [p1, p2, p3] ∧ pyInt p1 = o1 ∧ pyInt p2 = o2 ∧ pyInt p3 = o3 := by
  match l with
  | [] => simp
  | [p1] => simp
  | [p1, p2] => simp
  | [p1, p2, p3] =>
    constructor
    · intro h
      simp only [List.map, List.cons.injEq, and_true] at h
      exact ⟨p1, p2, p3, rfl, h.1, h.2.1, h.2.2⟩
    · rintro ⟨q1, q2, q3, heq, h1, h2, h3⟩
      simp only [List.cons.injEq, and_true] at heq
      obtain ⟨rfl, rfl, rfl⟩ := heq
      simp [h1, h2, h3]
  | p1 :: p2 :: p3 :: p4 :: t => simp

/-- **C1.** Parsing `--dorefa` splits its value on commas and converts each
piece with `int`, assigning exactly three integers to `(BITW, BITA, BITG)`;
the default string `"1,2,4"` yields `(1, 2, 4)`; and the parse succeeds
exactly on strings made of three comma-separated integer literals, the
three integers being the values of the three pieces in order. -/
theorem dorefa_parse_three_ints :
    parseDorefa dorefaDefault = some (1, 2, 4)
    ∧ (∀ s w a g, parseDorefa s = some (w, a, g) ↔
        ∃ p1 p2 p3, pySplitComma s = [p1, p2, p3]
          ∧ pyInt p1 = some w ∧ pyInt p2 = some a ∧ pyInt p3 = some g) := by
  refine ⟨by decide, fun s w a g => ?_⟩
  rw [parseDorefa_eq_some_iff, map_pyInt_eq_three]

/-- Witness for C1: instantiating the characterisation at the concrete
string `"7,8,9"` produces the triple `(7, 8, 9)`. -/
theorem dorefa_parse_three_ints_witness :
    parseDorefa "7,8,9" = some (7, 8, 9) :=
  (dorefa_parse_three_ints.2 "7,8,9" 7 8 9).mpr
    ⟨"7", "8", "9", by decide, by decide, by decide, by decide⟩

/-! ## The data pipeline (`get_data`)

Source, lines 207-263.  The dataflow value built by `get_data` is embedded
as a small syntax tree whose constructors are the tensorpack dataflow
wrappers the source applies, in application order from the inside out. -/

/-- `BATCH_SIZE = 32` (source line 69). -/
def BATCH_SIZE : Nat := 32

/-- A tensorpack dataflow as composed by `get_data`: the base dataset and
the three wrappers the script applies around it. -/
inductive DataFlow where
  | ilsvrc12 (dir : Option String) (split : String) (shuffle : Bool)
  | augmentImageComponent (base : DataFlow) (augmentors : List String)
  | batchData (base : DataFlow) (batchSize : Nat) (remainder : Bool)
  | prefetchDataZMQ (base : DataFlow) (nrProc : Nat)
deriving DecidableEq

/-- The training augmentor list (source lines 231-245), by class name. -/
def trainAugmentors : List String :=
  ["Resize", "Rotation", "RandomApplyAug(GaussianBlur)", "Brightness",
   "Gamma", "Contrast", "RandomCrop", "RandomApplyAug(JpegNoise)",
   "RandomApplyAug(GaussianDeform)", "Flip", "MapImage(subtract 128)"]

/-- The validation augmentor list (source lines 254-258), by class name. -/
def valAugmentors : List String :=
  ["MapImage(resize_func)", "CenterCrop", "MapImage(subtract pp_mean_224)"]

/-- `get_data(dataset_name)` (source lines 207-263): load the dataset,
augment, batch, and — for the training split only — prefetch with
`min(12, multiprocessing.cpu_count())` worker processes. -/
def get_data (dataDir : Option String) (cpuCount : Nat) (dataset_name : String) : DataFlow :=
  let isTrain : Bool := dataset_name == "train"
  let ds0 := DataFlow.ilsvrc12 dataDir dataset_name isTrain
  let augmentors := if isTrain then trainAugmentors else valAugmentors
  let ds1 := DataFlow.augmentImageComponent ds0 augmentors
  let ds2 := DataFlow.batchData ds1 BATCH_SIZE (!isTrain)
  if isTrain then DataFlow.prefetchDataZMQ ds2 (min 12 cpuCount) else ds2

/-- Whether a dataflow contains a `PrefetchDataZMQ` stage anywhere. -/
def DataFlow.hasPrefetchStage : DataFlow → Bool
  | .ilsvrc12 _ _ _ => false
  | .augmentImageComponent base _ => base.hasPrefetchStage
  | .batchData base _ _ => base.hasPrefetchStage
  | .prefetchDataZMQ _ _ => true

/-! ## Theorems for claim C6 -/

/-- **C6.** The pipeline composes load, augment, batch (size
`BATCH_SIZE = 32`), then prefetch, in that order; the prefetch stage with
`min(12, cpu_count)` worker processes wraps only the training pipeline,
while the validation pipeline is augmented and batched keeping the
remainder batch, with no prefetch stage anywhere. -/
theorem pipeline_stage_order (dataDir : Option String) (cpuCount : Nat) :
    get_data dataDir cpuCount "train" =
      DataFlow.prefetchDataZMQ
        (DataFlow.batchData
          (DataFlow.augmentImageComponent
            (DataFlow.ilsvrc12 dataDir "train" true) trainAugmentors)
          32 false)
        (min 12 cpuCount)
    ∧ get_data dataDir cpuCount "val" =
        DataFlow.batchData
          (DataFlow.augmentImageComponent
            (DataFlow.ilsvrc12 dataDir "val" false) valAugmentors)
          32 true
    ∧ (get_data dataDir cpuCount "val").hasPrefetchStage = false := by
  refine ⟨rfl, rfl, rfl⟩

/-! ## The `tf.get_variable` monkey-patch (`Model._build_graph`)

Source, lines 76-186.  `_build_graph` saves `tf.get_variable`, replaces it
by `new_get_variable` (which applies the weight-quantization function `fw`
to every variable created under the name `'W'` and to no other), builds the
layer stack, and restores the saved function.  The `tf` module is embedded
as a record holding the `get_variable` binding plus an arbitrary value
standing for every other global; variables are records carrying the name
they were requested under, their scope-qualified op name, and whether `fw`
was applied to them. -/

/-- A created variable: the `name` argument passed to `tf.get_variable`,
the scope-qualified op name, and whether `fw` has been applied. -/
structure TFVarRec where
  var_name : String
  op_name : String
  fwApplied : Bool
deriving DecidableEq

/-- The type of `tf.get_variable`: enclosing variable scope and variable
name to the created variable. -/
def GetVar : Type := String → String → TFVarRec

/-- The `tf` module object: the `get_variable` binding plus a value of an
arbitrary type standing for all its other globals. -/
structure TFModule (α : Type) where
  get_variable : GetVar
  rest : α

/-- Modelled from the spec: the weight-quantization function `fw` returned
by `get_dorefa` (imported from the external `dorefa` module, not under
`src/`); its numeric behaviour is irrelevant here, so it is modelled as
marking the variable as quantized. -/
def fwMark (v : TFVarRec) : TFVarRec :=
  { v with fwApplied := true }

/-- `new_get_variable` (source lines 84-92): create the variable with the
saved getter, then apply `fw` exactly when the requested name is `'W'`. -/
def new_get_variable (old_get_variable : GetVar) (fw : TFVarRec → TFVarRec) : GetVar :=
  fun scope name =>
    let v := old_get_variable scope name
    if name ≠ "W" then v else fw v

/-- One layer call of the model body (source lines 105-185). -/
inductive LayerCall where
  | conv2D (name : String)
  | batchNorm (name : String)
  | maxPooling (name : String)
  | fullyConnected (name : String)
deriving DecidableEq

/-- The layer stack of `_build_graph`, in source order (lines 105-185);
`apply fg`, `apply activate` and the input scaling create no variables. -/
def modelLayers : List LayerCall :=
  [.conv2D "conv0", .batchNorm "bn0", .maxPooling "pool0",
   .conv2D "conv1", .batchNorm "bn1", .maxPooling "pool1",
   .conv2D "conv2", .batchNorm "bn2",
   .conv2D "conv3", .batchNorm "bn3",
   .conv2D "conv4", .batchNorm "bn4", .maxPooling "pool4",
   .fullyConnected "fc0", .batchNorm "bnfc0",
   .fullyConnected "fc1", .batchNorm "bnfc1",
   .fullyConnected "fct"]

/-- Modelled from the spec: the tensorpack layer primitives create their
parameters through `tf.get_variable` under the layer's variable scope —
`Conv2D` and `FullyConnected` (called with `use_bias=False`) create the
single weight `'W'`; `BatchNorm` creates `'beta'`, `'gamma'`,
`'mean/EMA'`, `'variance/EMA'`; `MaxPooling` creates none. -/
def layerVariables (getv : GetVar) : LayerCall → List TFVarRec
  | .conv2D n => [getv n "W"]
  | .fullyConnected n => [getv n "W"]
  | .batchNorm n => [getv n "beta", getv n "gamma", getv n "mean/EMA", getv n "variance/EMA"]
  | .maxPooling _ => []

/-- `Model._build_graph` restricted to its effect on the `tf` module and to
the variables it creates (source lines 82-93 and 186): save
`tf.get_variable`, install `new_get_variable`, build the layer stack with
the installed getter, restore the saved getter.  Returns the final `tf`
module value and the list of created variables. -/
def build_graph {α : Type} (tf : TFModule α) : TFModule α × List TFVarRec :=
  let old_get_variable := tf.get_variable
  let tf1 : TFModule α := { tf with get_variable := new_get_variable old_get_variable fwMark }
  let vars := (modelLayers.map (layerVariables tf1.get_variable)).flatten
  let tf2 : TFModule α := { tf1 with get_variable := old_get_variable }
  (tf2, vars)

/-- The unpatched getter: creates an unquantized variable whose op name is
the scope-qualified variable name. -/
def baseGetVar : GetVar :=
  fun scope name => { var_name := name, op_name := scope ++ "/" ++ name, fwApplied := false }

/-- The variables created during one `_build_graph` run over the unpatched
`tf` module. -/
def buildTrace : List TFVarRec :=
  (build_graph { get_variable := baseGetVar, rest := () }).2

/-! ## Theorems for claims C5 and C8 -/

/-- **C5.** The replacement of `tf.get_variable` is temporary: once
`_build_graph` returns normally the `tf` module is exactly what it was
before the call — `get_variable` is restored to the saved original and no
other global is modified. -/
theorem monkey_patch_restored {α : Type} (tf : TFModule α) :
    (build_graph tf).1 = tf :=
  rfl

/-- **C8.** During graph construction `fw` is applied to exactly the
variables requested under the name `'W'` and to no others: the quantized
variables of the build trace are precisely the variables named `'W'`, their
op names list every layer's weight — including `conv0/W` of the first
convolution and `fct/W` of the final fully-connected layer, despite the
adjacent comment about not binarizing the first and last layer — and no
BatchNorm parameter is quantized. -/
theorem fw_applied_exactly_to_W :
    buildTrace.filter (fun v => v.fwApplied)
      = buildTrace.filter (fun v => v.var_name == "W")
    ∧ (buildTrace.filter (fun v => v.fwApplied)).map (fun v => v.op_name)
      = ["conv0/W", "conv1/W", "conv2/W", "conv3/W", "conv4/W",
         "fc0/W", "fc1/W", "fct/W"]
    ∧ (TFVarRec.mk "W" "conv0/W" true) ∈ buildTrace
    ∧ (TFVarRec.mk "W" "fct/W" true) ∈ buildTrace
    ∧ buildTrace.all (fun v => v.var_name == "W" || !v.fwApplied) = true := by
  refine ⟨by decide, by decide, by decide, by decide, by decide⟩

/-! ## The inference driver (`run_image` and `__main__`)

Source, lines 294-371.  The script's interaction with the outside world
(filesystem tests, `cv2.imread`, the cv2-based preprocessing, the compiled
predictor, `np.load`) is abstracted into an `Env` record of uninterpreted
functions; the script's own control flow — the assertions, the dump-file
writes, the top-10 computation, and the branch between inference and
training — is transcribed from the source.  A run produces a list of
observable events plus an outcome. -/

/-- A numeric array (one row of activations or probabilities). -/
abbrev Arr := List ℚ

/-- A batched array: outermost axis is the batch axis. -/
abbrev Batch := List Arr

/-- The Python exceptions the script can die with, tagged by site. -/
inductive PyError where
  | valueError (site : String)
  | assertionError (site : String)
  | attributeError (site : String)
  | ioError (site : String)
  | indexError (site : String)
deriving DecidableEq

/-- Observable actions of one script run. -/
inductive Event where
  | readImage (path : String)
  | dumpHex (path : String) (a : Batch)
  | dumpInt (path : String) (a : Batch)
  | predictCall (a : Batch)
  | dumpFloat (path : String) (a : Batch)
  | printResult (path : String) (pairs : List (String × ℚ))
  | buildTrainConfig
deriving DecidableEq

/-- Modelled from the spec: the external world as the script sees it —
`os.path.isfile`, `cv2.imread` (`none` = failed read), `.astype('float32')`
on a successfully read array, the cv2/augmentor preprocessing
(`transformers.augment(img)[np.newaxis, :, :, :]`), the compiled tensorpack
predictor (one output array per requested output variable), whether
`np.load` succeeds on a path, the 1000 synset words, and the CPU count. -/
structure Env where
  isFile : String → Bool
  imread : String → Option Nat
  astypeF : Nat → Nat
  transform : Nat → Batch
  predict : Batch → List Batch
  npyLoad : String → Bool
  words : List String
  cpuCount : Nat

/-- Python list indexing: `l[i]` for a non-negative index, raising
`IndexError` when out of range. -/
def pyIndex {α : Type} (l : List α) (i : Nat) : Except PyError α :=
  match l[i]? with
  | some a => .ok a
  | none => .error (.indexError "list index out of range")

/-- `cv2.imread(f).astype('float32')`: when the read produced `None`, the
attribute access raises `AttributeError` before any assertion runs;
otherwise the converted array (never `None`) is returned. -/
def pyAstype (astypeF : Nat → Nat) (v : Option Nat) : Except PyError (Option Nat) :=
  match v with
  | none => .error (.attributeError "NoneType astype")
  | some m => .ok (some (astypeF m))

/-- `np.round` on one value: round half to even.  With `f` and `r` the
floor quotient and remainder of `num / den` (den positive), the fractional
part `r / den` decides the direction. -/
def pyRound (q : ℚ) : ℚ :=
  let f : Int := Int.ediv q.num q.den
  let r : Int := Int.emod q.num q.den
  if 2 * r < (q.den : Int) then (f : ℚ)
  else if (q.den : Int) < 2 * r then ((f + 1 : Int) : ℚ)
  else if 2 ∣ f then (f : ℚ) else ((f + 1 : Int) : ℚ)

/-- `np.round` elementwise on a batch. -/
def npRound (b : Batch) : Batch :=
  b.map (fun row => row.map pyRound)

/-- The 17 intermediate layer names of the dump loop (source line 333). -/
def inter_layers : List String :=
  ["conv0", "bn0", "active0", "pool0", "conv1", "bn1", "active1", "pool1",
   "conv2", "conv3", "conv4", "pool4", "fc0", "fc0bn", "fc0active", "fc1", "fct"]

/-- The dump loop (source lines 336-337): for the `i`-th layer name, write
`dump/<name>.dat` with `outputs[i+1]`; an out-of-range index aborts the
loop, keeping the dumps already written. -/
def layerDumpLoop (outputs : List Batch) :
    List (Nat × String) → Except (List Event × PyError) (List Event)
  | [] => .ok []
  | (i, name) :: rest =>
    match pyIndex outputs (i + 1) with
    | .error e => .error ([], e)
    | .ok a =>
      match layerDumpLoop outputs rest with
      | .error (evs, e) => .error (Event.dumpFloat ("dump/" ++ name ++ ".dat") a :: evs, e)
      | .ok evs => .ok (Event.dumpFloat ("dump/" ++ name ++ ".dat") a :: evs)

/-- The relation `numpy.argsort` sorts indices by: value at `i` at most
value at `j`. -/
def argsortRel (xs : List ℚ) (i j : Nat) : Prop :=
  xs.getD i 0 ≤ xs.getD j 0

instance argsortRelDecidable (xs : List ℚ) : DecidableRel (argsortRel xs) :=
  fun i j => inferInstanceAs (Decidable (xs.getD i 0 ≤ xs.getD j 0))

instance argsortRelTotal (xs : List ℚ) : IsTotal Nat (argsortRel xs) :=
  ⟨fun _ _ => le_total _ _⟩

instance argsortRelTrans (xs : List ℚ) : IsTrans Nat (argsortRel xs) :=
  ⟨fun _ _ _ => le_trans⟩

/-- `prob.argsort()`: the indices of `xs`, sorted by ascending value. -/
def npArgsort (xs : List ℚ) : List Nat :=
  List.insertionSort (argsortRel xs) (List.range xs.length)

/-- Python `l[-10:]`: the last ten elements (all of them when shorter). -/
def pyLastTen (l : List Nat) : List Nat :=
  l.drop (l.length - 10)

/-- `ret = prob.argsort()[-10:][::-1]` (source line 339). -/
def topTen (xs : List ℚ) : List Nat :=
  (pyLastTen (npArgsort xs)).reverse

/-- `list(zip(names, prob[ret]))` with `names = [words[i] for i in ret]`
(source lines 341-343). -/
def printedPairs (words : List String) (prob : Arr) : List (String × ℚ) :=
  (topTen prob).map (fun i => (words.getD i "", prob.getD i 0))

/-- The preprocessed input of one image:
`np.round(transformers.augment(img)[np.newaxis, :, :, :])` applied to the
`float32`-converted read result (source lines 323-329). -/
def preprocessed (env : Env) (m0 : Nat) : Batch :=
  npRound (env.transform (env.astypeF m0))

/-- The events performed before the predictor is consulted: read the
image, dump the preprocessed input in hex and int form
(`./dump/input_sim.dat`, `./dump/input.dat`), call the predictor. -/
def inputDumpEvents (f : String) (b : Batch) : List Event :=
  [Event.readImage f, Event.dumpHex "./dump/input_sim.dat" b,
   Event.dumpInt "./dump/input.dat" b, Event.predictCall b]

/-- The part of one loop iteration after preprocessing succeeded: dump the
17 intermediate outputs, read `outputs[0][0]`, and print the top-10
classes (source lines 330-343). -/
def postPredict (env : Env) (f : String) (b : Batch) :
    Except (List Event × PyError) (List Event) :=
  match layerDumpLoop (env.predict b) (List.enum inter_layers) with
  | .error (evs, e) => .error (inputDumpEvents f b ++ evs, e)
  | .ok dumpEvs =>
    match pyIndex (env.predict b) 0 with
    | .error e => .error (inputDumpEvents f b ++ dumpEvs, e)
    | .ok out0 =>
      match pyIndex out0 0 with
      | .error e => .error (inputDumpEvents f b ++ dumpEvs, e)
      | .ok prob =>
        .ok (inputDumpEvents f b ++ dumpEvs
          ++ [Event.printResult f (printedPairs env.words prob)])

/-- The body of the `for f in inputs` loop of `run_image` for one path
(source lines 321-343): assert the path is a file, read and convert it,
assert the (necessarily non-`None`) array, preprocess, then dump and
predict.  Errors carry the events already performed. -/
def processFile (env : Env) (f : String) : Except (List Event × PyError) (List Event) :=
  if env.isFile f then
    match pyAstype env.astypeF (env.imread f) with
    | .error e => .error ([Event.readImage f], e)
    | .ok img =>
      if img.isNone then .error ([Event.readImage f], .assertionError "img is not None")
      else postPredict env f (npRound (env.transform (img.getD 0)))
  else .error ([], .assertionError "os.path.isfile")

/-- The `for f in inputs` loop of `run_image`: process the paths in order;
the first raised exception terminates processing, keeping the events of
the completed iterations. -/
def runImageLoop (env : Env) : List String → Except (List Event × PyError) (List Event)
  | [] => .ok []
  | f :: rest =>
    match processFile env f with
    | .error (evs, e) => .error (evs, e)
    | .ok evs =>
      match runImageLoop env rest with
      | .error (evs2, e) => .error (evs ++ evs2, e)
      | .ok evs2 => .ok (evs ++ evs2)

/-- The events of a loop result, completed or aborted. -/
def exceptEvents : Except (List Event × PyError) (List Event) → List Event
  | .ok evs => evs
  | .error (evs, _) => evs

/-! ## The `__main__` driver -/

/-- The parsed command-line arguments.  `run` uses `nargs='*'`: `none` when
the flag is absent, `some []` when given with zero paths. -/
structure Args where
  gpu : Option String := none
  load : Option String := none
  dataDir : Option String := none
  dorefa : String := dorefaDefault
  run : Option (List String) := none
deriving DecidableEq

/-- Python truthiness of an optional string (`if args.gpu:`): `None` and
the empty string are falsy. -/
def pyTruthyStrOpt : Option String → Bool
  | none => false
  | some s => !(s == "")

/-- Python truthiness of an optional list (`if args.run:`): `None` and the
empty list are falsy. -/
def pyTruthyListOpt : Option (List String) → Bool
  | none => false
  | some l => !l.isEmpty

/-- How a run of the script ends. -/
inductive Outcome where
  | exited
  | training (nrTower : Option Nat)
  | aborted (e : PyError)
deriving DecidableEq

/-- The result of one script run: the events performed, the final value of
the `CUDA_VISIBLE_DEVICES` environment variable (`none` = never set), and
the outcome. -/
structure RunResult where
  events : List Event
  cuda : Option String
  outcome : Outcome
deriving DecidableEq

/-- `if args.gpu: os.environ['CUDA_VISIBLE_DEVICES'] = args.gpu` (source
lines 358-359): the final value of the environment variable, `none` when
the assignment never ran. -/
def cudaEnvVar (args : Args) : Option String :=
  if pyTruthyStrOpt args.gpu then args.gpu else none

/-- The branch of `__main__` after argument parsing and the
`CUDA_VISIBLE_DEVICES` assignment (source lines 361-371): when `--run` is
truthy, assert the `--load` extension, load the weights, and loop over the
images, exiting afterwards; otherwise build the training configuration,
set `nr_tower` when `--gpu` is truthy, and enter
`SyncMultiGPUTrainer.train()` — modelled as the `training` outcome, with
`none` standing for the framework-default tower count. -/
def scriptMainCore (env : Env) (args : Args) : List Event × Outcome :=
  if pyTruthyListOpt args.run then
    match args.load with
    | none => ([], .aborted (.attributeError "NoneType endswith"))
    | some load =>
      if pyEndsWith load ".npy" then
        if env.npyLoad load then
          match runImageLoop env (args.run.getD []) with
          | .error (evs, e) => (evs, .aborted e)
          | .ok evs => (evs, .exited)
        else ([], .aborted (.ioError "np.load"))
      else ([], .aborted (.assertionError "args.load.endswith"))
  else
    ([Event.buildTrainConfig],
     .training (if pyTruthyStrOpt args.gpu then some (pySplitComma (args.gpu.getD "")).length
                else none))

/-- The `__main__` block (source lines 345-371): parse `--dorefa` (a
failure raises `ValueError` before anything else happens), set
`CUDA_VISIBLE_DEVICES` when `--gpu` is truthy, then run the inference or
training branch. -/
def scriptMain (env : Env) (args : Args) : RunResult :=
  match parseDorefa args.dorefa with
  | none => { events := [], cuda := none, outcome := .aborted (.valueError "int()") }
  | some _bits =>
    { events := (scriptMainCore env args).1
      cuda := cudaEnvVar args
      outcome := (scriptMainCore env args).2 }

/-- A path prefix `./` denotes the same file as the bare relative path. -/
def stripDotSlash (p : String) : String :=
  if p.data.take 2 = ['.', '/'] then String.mk (p.data.drop 2) else p

/-- A concrete environment in which every path is a regular file, reads
succeed, and the predictor returns 18 singleton-batch outputs. -/
def env0 : Env :=
  { isFile := fun _ => true
    imread := fun _ => some 0
    astypeF := fun m => m
    transform := fun _ => [[1]]
    predict := fun _ => List.replicate 18 [[1]]
    npyLoad := fun _ => true
    words := ["tench", "goldfish"]
    cpuCount := 8 }

/-- A concrete environment in which no path is a regular file. -/
def envNoFiles : Env :=
  { env0 with isFile := fun _ => false }

instance {ε α : Type} [DecidableEq ε] [DecidableEq α] : DecidableEq (Except ε α) := fun x y =>
  match x, y with
  | .ok a, .ok b => if h : a = b then isTrue (by rw [h]) else isFalse (by simp [h])
  | .error a, .error b => if h : a = b then isTrue (by rw [h]) else isFalse (by simp [h])
  | .ok _, .error _ => isFalse (by simp)
  | .error _, .ok _ => isFalse (by simp)

/-! ## Helper lemmas about truthiness and error propagation -/

/-- An optional list is falsy exactly when it is absent or empty. -/
theorem pyTruthyListOpt_eq_false_iff {o : Option (List String)} :
    pyTruthyListOpt o = false ↔ o = none ∨ o = some [] := by
  cases o with
  | none => simp [pyTruthyListOpt]
  | some l => cases l <;> simp [pyTruthyListOpt]

/-- A present non-empty list is truthy. -/
theorem pyTruthyListOpt_some_of_ne_nil {fs : List String} (h : fs ≠ []) :
    pyTruthyListOpt (some fs) = true := by
  cases fs with
  | nil => exact absurd rfl h
  | cons a t => rfl

/-- A present non-empty string is truthy. -/
theorem pyTruthyStrOpt_some_of_ne (g : String) (h : g ≠ "") :
    pyTruthyStrOpt (some g) = true := by
  simp [pyTruthyStrOpt, h]

/-- `pyAstype` never returns `None`: a successful `.astype` call always
yields an actual array. -/
theorem pyAstype_ok_not_none {aF : Nat → Nat} {v img : Option Nat}
    (h : pyAstype aF v = .ok img) : img.isNone = false := by
  cases v with
  | none => simp [pyAstype] at h
  | some m =>
    simp only [pyAstype, Except.ok.injEq] at h
    simp [← h]

/-- The only error `pyAstype` can raise is the `AttributeError` from
calling `.astype` on `None`. -/
theorem pyAstype_error_attr {aF : Nat → Nat} {v : Option Nat} {e : PyError}
    (h : pyAstype aF v = .error e) : e = .attributeError "NoneType astype" := by
  cases v with
  | none =>
    simp only [pyAstype, Except.error.injEq] at h
    exact h.symm
  | some m => simp [pyAstype] at h

/-- `pyIndex` can only raise `IndexError`. -/
theorem pyIndex_error_index {α : Type} {l : List α} {i : Nat} {e : PyError}
    (h : pyIndex l i = .error e) : e = .indexError "list index out of range" := by
  unfold pyIndex at h
  cases hl : l[i]? with
  | none => rw [hl] at h; exact (Except.error.injEq _ _).mp h.symm
  | some a => rw [hl] at h; exact absurd h (by simp)

/-- The dump loop can only raise `IndexError`. -/
theorem layerDumpLoop_error_index {outputs : List Batch}
    {pairs : List (Nat × String)} {evs : List Event} {e : PyError}
    (h : layerDumpLoop outputs pairs = .error (evs, e)) :
    e = .indexError "list index out of range" := by
  induction pairs generalizing evs e with
  | nil => simp [layerDumpLoop] at h
  | cons p rest ih =>
    obtain ⟨i, name⟩ := p
    unfold layerDumpLoop at h
    cases hidx : pyIndex outputs (i + 1) with
    | error e1 =>
      rw [hidx] at h
      simp only [Except.error.injEq, Prod.mk.injEq] at h
      exact h.2 ▸ pyIndex_error_index hidx
    | ok a =>
      rw [hidx] at h
      cases hrec : layerDumpLoop outputs rest with
      | error pe =>
        obtain ⟨evs1, e1⟩ := pe
        rw [hrec] at h
        simp only [Except.error.injEq, Prod.mk.injEq] at h
        exact h.2 ▸ ih hrec
      | ok evs1 => rw [hrec] at h; exact absurd h (by simp)

/-- The build-config event never appears among the dump-loop events. -/
theorem buildTrainConfig_not_mem_layerDumpLoop (outputs : List Batch)
    (pairs : List (Nat × String)) :
    Event.buildTrainConfig ∉ exceptEvents (layerDumpLoop outputs pairs) := by
  induction pairs with
  | nil => simp [layerDumpLoop, exceptEvents]
  | cons p rest ih =>
    obtain ⟨i, name⟩ := p
    unfold layerDumpLoop
    cases hidx : pyIndex outputs (i + 1) with
    | error e => simp [exceptEvents]
    | ok a =>
      cases hrec : layerDumpLoop outputs rest with
      | error pe =>
        obtain ⟨evs, e⟩ := pe
        rw [hrec] at ih
        simp only [exceptEvents] at ih ⊢
        simp [ih]
      | ok evs =>
        rw [hrec] at ih
        simp only [exceptEvents] at ih ⊢
        simp [ih]

/-- The build-config event never appears among the post-prediction events. -/
theorem buildTrainConfig_not_mem_postPredict (env : Env) (f : String) (b : Batch) :
    Event.buildTrainConfig ∉ exceptEvents (postPredict env f b) := by
  have hdump := buildTrainConfig_not_mem_layerDumpLoop (env.predict b) (List.enum inter_layers)
  unfold postPredict
  split
  next evs e heq =>
    rw [heq] at hdump
    simp only [exceptEvents] at hdump ⊢
    simp [inputDumpEvents, hdump]
  next dumpEvs heq =>
    rw [heq] at hdump
    simp only [exceptEvents] at hdump
    split
    next e h0 => simp [exceptEvents, inputDumpEvents, hdump]
    next out0 h0 =>
      split
      next e h1 => simp [exceptEvents, inputDumpEvents, hdump]
      next prob h1 => simp [exceptEvents, inputDumpEvents, hdump]

/-- The build-config event never appears among one iteration's events. -/
theorem buildTrainConfig_not_mem_processFile (env : Env) (f : String) :
    Event.buildTrainConfig ∉ exceptEvents (processFile env f) := by
  unfold processFile
  cases hfile : env.isFile f with
  | false => simp [exceptEvents]
  | true =>
    simp only [if_true]
    cases hast : pyAstype env.astypeF (env.imread f) with
    | error e => simp [exceptEvents]
    | ok img =>
      cases himg : img.isNone with
      | true => simp [himg, exceptEvents]
      | false =>
        simp only [himg, Bool.false_eq_true, if_false]
        exact buildTrainConfig_not_mem_postPredict env f _

/-- The build-config event never appears among the inference loop's
events. -/
theorem buildTrainConfig_not_mem_runImageLoop (env : Env) (fs : List String) :
    Event.buildTrainConfig ∉ exceptEvents (runImageLoop env fs) := by
  induction fs with
  | nil => simp [runImageLoop, exceptEvents]
  | cons f rest ih =>
    have hpf := buildTrainConfig_not_mem_processFile env f
    unfold runImageLoop
    split
    next evs e heq =>
      rw [heq] at hpf
      simpa only [exceptEvents] using hpf
    next evs heq =>
      rw [heq] at hpf
      simp only [exceptEvents] at hpf
      split
      next evs2 e heq2 =>
        rw [heq2] at ih
        simp only [exceptEvents] at ih ⊢
        simp [hpf, ih]
      next evs2 heq2 =>
        rw [heq2] at ih
        simp only [exceptEvents] at ih ⊢
        simp [hpf, ih]

/-- The post-prediction phase can only raise `IndexError`. -/
theorem postPredict_error_index {env : Env} {f : String} {b : Batch}
    {evs : List Event} {e : PyError}
    (h : postPredict env f b = .error (evs, e)) :
    e = .indexError "list index out of range" := by
  unfold postPredict at h
  split at h
  next evs1 e1 heq =>
    simp only [Except.error.injEq, Prod.mk.injEq] at h
    exact h.2 ▸ layerDumpLoop_error_index heq
  next dumpEvs heq =>
    split at h
    next e1 h0 =>
      simp only [Except.error.injEq, Prod.mk.injEq] at h
      exact h.2 ▸ pyIndex_error_index h0
    next out0 h0 =>
      split at h
      next e1 h1 =>
        simp only [Except.error.injEq, Prod.mk.injEq] at h
        exact h.2 ▸ pyIndex_error_index h1
      next prob h1 => exact absurd h (by simp)

/-- The errors one loop iteration can raise: the file-existence assertion,
the `AttributeError` from `.astype` on a failed read, or an `IndexError`
from the dump loop — never the `img is not None` assertion. -/
theorem processFile_error_site {env : Env} {f : String}
    {evs : List Event} {e : PyError}
    (h : processFile env f = .error (evs, e)) :
    e = .assertionError "os.path.isfile"
    ∨ e = .attributeError "NoneType astype"
    ∨ e = .indexError "list index out of range" := by
  unfold processFile at h
  split at h
  · split at h
    next e1 hast =>
      simp only [Except.error.injEq, Prod.mk.injEq] at h
      exact Or.inr (Or.inl (h.2 ▸ pyAstype_error_attr hast))
    next img hast =>
      split at h
      · rename_i hnone
        rw [pyAstype_ok_not_none hast] at hnone
        exact absurd hnone (by simp)
      · exact Or.inr (Or.inr (postPredict_error_index h))
  · simp only [Except.error.injEq, Prod.mk.injEq] at h
    exact Or.inl h.2.symm

/-- The errors the inference loop can raise are those of its iterations. -/
theorem runImageLoop_error_site {env : Env} {fs : List String}
    {evs : List Event} {e : PyError}
    (h : runImageLoop env fs = .error (evs, e)) :
    e = .assertionError "os.path.isfile"
    ∨ e = .attributeError "NoneType astype"
    ∨ e = .indexError "list index out of range" := by
  induction fs generalizing evs e with
  | nil => simp [runImageLoop] at h
  | cons f rest ih =>
    unfold runImageLoop at h
    split at h
    next evs1 e1 heq =>
      simp only [Except.error.injEq, Prod.mk.injEq] at h
      exact h.2 ▸ processFile_error_site heq
    next evs1 heq =>
      split at h
      next evs2 e2 heq2 =>
        simp only [Except.error.injEq, Prod.mk.injEq] at h
        exact h.2 ▸ ih heq2
      next evs2 heq2 => exact absurd h (by simp)

/-- When the `--dorefa` parse succeeds, the run result assembles the core
branch with the `CUDA_VISIBLE_DEVICES` assignment. -/
theorem scriptMain_eq_of_parse {env : Env} {args : Args} {bits : Int × Int × Int}
    (hb : parseDorefa args.dorefa = some bits) :
    scriptMain env args =
      { events := (scriptMainCore env args).1
        cuda := cudaEnvVar args
        outcome := (scriptMainCore env args).2 } := by
  unfold scriptMain
  rw [hb]

/-- With a truthy `--run`, the core branch never trains, and its events
are either empty (a pre-loop abort) or exactly the loop's events. -/
theorem scriptMainCore_run_truthy (env : Env) (args : Args)
    (hrun : pyTruthyListOpt args.run = true) :
    ((scriptMainCore env args).1 = []
      ∨ (scriptMainCore env args).1 = exceptEvents (runImageLoop env (args.run.getD [])))
    ∧ ∀ t, (scriptMainCore env args).2 ≠ .training t := by
  unfold scriptMainCore
  rw [if_pos hrun]
  split
  next => exact ⟨Or.inl rfl, by simp⟩
  next load heq =>
    by_cases hnpy : pyEndsWith load ".npy" = true
    · rw [if_pos hnpy]
      by_cases hnpl : env.npyLoad load = true
      · rw [if_pos hnpl]
        split
        next evs e heq => exact ⟨Or.inr (by rw [heq]; rfl), by simp⟩
        next evs heq => exact ⟨Or.inr (by rw [heq]; rfl), by simp⟩
      · rw [if_neg hnpl]
        exact ⟨Or.inl rfl, by simp⟩
    · rw [if_neg hnpy]
      exact ⟨Or.inl rfl, by simp⟩

/-! ## Theorems for claim C2 -/

/-- **C2.** In inference mode — the branch taken when `--run` is given a
non-empty list — the script's precondition failures are assertion
failures that abort the process: with a `--load` path not ending in
`.npy` the script aborts on that assertion with no inference event
performed; a path that is not an existing regular file aborts its
iteration on the `os.path.isfile` assertion before any read of that path;
and the first failing iteration terminates the loop, keeping only the
events already performed — no retry or recovery. -/
theorem inference_assertions_abort :
    (∀ env args p, (parseDorefa args.dorefa).isSome = true →
        pyTruthyListOpt args.run = true → args.load = some p →
        pyEndsWith p ".npy" = false →
        (scriptMain env args).events = []
          ∧ (scriptMain env args).outcome
              = .aborted (.assertionError "args.load.endswith"))
    ∧ (∀ env f, env.isFile f = false →
        processFile env f = .error ([], .assertionError "os.path.isfile"))
    ∧ (∀ env f rest evs e, processFile env f = .error (evs, e) →
        runImageLoop env (f :: rest) = .error (evs, e)) := by
  refine ⟨?_, ?_, ?_⟩
  · intro env args p hparse hrun hload hnpy
    obtain ⟨bits, hb⟩ := Option.isSome_iff_exists.mp hparse
    rw [scriptMain_eq_of_parse hb]
    have hcore : scriptMainCore env args
        = ([], .aborted (.assertionError "args.load.endswith")) := by
      unfold scriptMainCore
      rw [if_pos hrun]
      split
      next hnone => rw [hload] at hnone; exact absurd hnone (by simp)
      next load heq =>
        rw [hload, Option.some.injEq] at heq
        subst heq
        rw [if_neg (by simp [hnpy])]
    rw [hcore]
    exact ⟨rfl, rfl⟩
  · intro env f h
    unfold processFile
    rw [if_neg (by simp [h])]
  · intro env f rest evs e h
    unfold runImageLoop
    simp only [h]

/-- Witness for C2: a run with `--run cat.jpg --load weights.txt` aborts on
the extension assertion with no events, and processing a path that is not
a file aborts on the `isfile` assertion. -/
theorem inference_assertions_abort_witness :
    ((scriptMain env0 { load := some "weights.txt", run := some ["cat.jpg"] }).events = []
      ∧ (scriptMain env0 { load := some "weights.txt", run := some ["cat.jpg"] }).outcome
          = .aborted (.assertionError "args.load.endswith"))
    ∧ processFile envNoFiles "cat.jpg"
        = .error ([], .assertionError "os.path.isfile") :=
  ⟨inference_assertions_abort.1 env0
      { load := some "weights.txt", run := some ["cat.jpg"] } "weights.txt"
      (by decide) (by decide) rfl (by decide),
   inference_assertions_abort.2.1 envNoFiles "cat.jpg" rfl⟩

/-! ## Theorems for claim C3 -/

/-- A concrete inference invocation: one image, a `.npy` weights file. -/
def argsRunCat : Args :=
  { load := some "zf_pad_64.npy", run := some ["cat.jpg"] }

/-- **C3 (amended).** With `--run` given a non-empty list the script stays
in the inference branch: it never builds the training configuration nor
enters training, and when every precondition holds (valid `--dorefa`, a
`.npy` `--load` that loads, all images process) it performs exactly the
loop's events and exits; the training branch — building the configuration
and entering `SyncMultiGPUTrainer` — is reached exactly when `--run` is
absent or given an empty list (given a valid `--dorefa`). -/
theorem inference_branch_never_trains :
    (∀ env args fs, args.run = some fs → fs ≠ [] →
        Event.buildTrainConfig ∉ (scriptMain env args).events
          ∧ ∀ t, (scriptMain env args).outcome ≠ .training t)
    ∧ (∀ env args fs p evs, args.run = some fs → fs ≠ [] →
        (parseDorefa args.dorefa).isSome = true →
        args.load = some p → pyEndsWith p ".npy" = true → env.npyLoad p = true →
        runImageLoop env fs = .ok evs →
        (scriptMain env args).events = evs
          ∧ (scriptMain env args).outcome = .exited)
    ∧ (∀ env args, (parseDorefa args.dorefa).isSome = true →
        ((∃ t, (scriptMain env args).outcome = .training t)
          ↔ (args.run = none ∨ args.run = some []))) := by
  refine ⟨?_, ?_, ?_⟩
  · intro env args fs hrun hne
    have htruthy : pyTruthyListOpt args.run = true := by
      rw [hrun]; exact pyTruthyListOpt_some_of_ne_nil hne
    cases hb : parseDorefa args.dorefa with
    | none =>
      unfold scriptMain
      rw [hb]
      exact ⟨by simp, by simp⟩
    | some bits =>
      rw [scriptMain_eq_of_parse hb]
      have hshape := scriptMainCore_run_truthy env args htruthy
      refine ⟨?_, fun t => hshape.2 t⟩
      show Event.buildTrainConfig ∉ (scriptMainCore env args).1
      rcases hshape.1 with hev | hev
      · rw [hev]; simp
      · rw [hev, hrun, Option.getD_some]
        exact buildTrainConfig_not_mem_runImageLoop env fs
  · intro env args fs p evs hrun hne hparse hload hnpy hnpl hloop
    obtain ⟨bits, hb⟩ := Option.isSome_iff_exists.mp hparse
    have htruthy : pyTruthyListOpt args.run = true := by
      rw [hrun]; exact pyTruthyListOpt_some_of_ne_nil hne
    rw [scriptMain_eq_of_parse hb]
    have hcore : scriptMainCore env args = (evs, .exited) := by
      unfold scriptMainCore
      rw [if_pos htruthy]
      split
      next hnone => rw [hload] at hnone; exact absurd hnone (by simp)
      next load heq =>
        rw [hload, Option.some.injEq] at heq
        subst heq
        rw [if_pos hnpy, if_pos hnpl, hrun, Option.getD_some, hloop]
    rw [hcore]
    exact ⟨rfl, rfl⟩
  · intro env args hparse
    obtain ⟨bits, hb⟩ := Option.isSome_iff_exists.mp hparse
    rw [scriptMain_eq_of_parse hb]
    constructor
    · rintro ⟨t, ht⟩
      by_cases htruthy : pyTruthyListOpt args.run = true
      · exact absurd ht ((scriptMainCore_run_truthy env args htruthy).2 t)
      · have hfalse : pyTruthyListOpt args.run = false := by
          revert htruthy; cases pyTruthyListOpt args.run <;> simp
        exact pyTruthyListOpt_eq_false_iff.mp hfalse
    · intro h
      have hfalse : pyTruthyListOpt args.run = false :=
        pyTruthyListOpt_eq_false_iff.mpr h
      refine ⟨if pyTruthyStrOpt args.gpu
                then some (pySplitComma (args.gpu.getD "")).length else none, ?_⟩
      show (scriptMainCore env args).2 = _
      unfold scriptMainCore
      rw [if_neg (by simp [hfalse])]

/-- Witness for C3: a run over one image never reaches training. -/
theorem inference_branch_never_trains_witness :
    Event.buildTrainConfig ∉ (scriptMain env0 argsRunCat).events
    ∧ ∀ t, (scriptMain env0 argsRunCat).outcome ≠ .training t :=
  inference_branch_never_trains.1 env0 argsRunCat ["cat.jpg"] rfl (by decide)

/-- Counterexample for C3 as stated: `--run` given with an empty list is
not absent, yet the script builds the training configuration and enters
training. -/
theorem run_empty_list_reaches_training :
    ({ run := some [] } : Args).run ≠ none
    ∧ (scriptMain env0 { run := some [] }).outcome = .training none
    ∧ Event.buildTrainConfig ∈ (scriptMain env0 { run := some [] }).events := by
  refine ⟨by simp, by decide, by decide⟩

/-! ## Theorems for claim C7 -/

/-- A concrete invocation with two device ids. -/
def argsGpu23 : Args := { gpu := some "2,3" }

/-- **C7 (amended).** When `--gpu` is given a non-empty value,
`CUDA_VISIBLE_DEVICES` is set to exactly that string and, in training
mode, the number of towers is the number of comma-separated ids in it;
when `--gpu` is absent the variable is never set and the tower count is
left at the framework default. -/
theorem gpu_flag_env_and_towers :
    (∀ env args g, (parseDorefa args.dorefa).isSome = true →
        args.gpu = some g → g ≠ "" →
        (scriptMain env args).cuda = some g)
    ∧ (∀ env args g, (parseDorefa args.dorefa).isSome = true →
        args.gpu = some g → g ≠ "" → pyTruthyListOpt args.run = false →
        (scriptMain env args).outcome = .training (some (pySplitComma g).length))
    ∧ (∀ env args, args.gpu = none → (scriptMain env args).cuda = none)
    ∧ (∀ env args, args.gpu = none → (parseDorefa args.dorefa).isSome = true →
        pyTruthyListOpt args.run = false →
        (scriptMain env args).outcome = .training none) := by
  refine ⟨?_, ?_, ?_, ?_⟩
  · intro env args g hparse hgpu hne
    obtain ⟨bits, hb⟩ := Option.isSome_iff_exists.mp hparse
    rw [scriptMain_eq_of_parse hb]
    show cudaEnvVar args = some g
    unfold cudaEnvVar
    rw [hgpu, if_pos (pyTruthyStrOpt_some_of_ne g hne)]
  · intro env args g hparse hgpu hne hrunf
    obtain ⟨bits, hb⟩ := Option.isSome_iff_exists.mp hparse
    rw [scriptMain_eq_of_parse hb]
    show (scriptMainCore env args).2 = _
    unfold scriptMainCore
    rw [if_neg (by simp [hrunf]), hgpu, Option.getD_some,
      if_pos (pyTruthyStrOpt_some_of_ne g hne)]
  · intro env args hgpu
    cases hb : parseDorefa args.dorefa with
    | none => unfold scriptMain; rw [hb]
    | some bits =>
      rw [scriptMain_eq_of_parse hb]
      show cudaEnvVar args = none
      unfold cudaEnvVar
      rw [hgpu]
      rfl
  · intro env args hgpu hparse hrunf
    obtain ⟨bits, hb⟩ := Option.isSome_iff_exists.mp hparse
    rw [scriptMain_eq_of_parse hb]
    show (scriptMainCore env args).2 = _
    unfold scriptMainCore
    rw [if_neg (by simp [hrunf]), hgpu]
    rfl

/-- Witness for C7: `--gpu 2,3` sets the environment variable to `"2,3"`
and trains on two towers. -/
theorem gpu_flag_env_and_towers_witness :
    (scriptMain env0 argsGpu23).cuda = some "2,3"
    ∧ (scriptMain env0 argsGpu23).outcome = .training (some 2) := by
  refine ⟨gpu_flag_env_and_towers.1 env0 argsGpu23 "2,3" (by decide) rfl (by decide), ?_⟩
  have h2 := gpu_flag_env_and_towers.2.1 env0 argsGpu23 "2,3" (by decide) rfl (by decide) rfl
  rw [h2]
  decide

/-- Counterexample for C7 as stated: `--gpu` given the empty string is
falsy — the script leaves `CUDA_VISIBLE_DEVICES` unset and the tower
count at its default, instead of setting them from the given value. -/
theorem gpu_empty_string_not_set :
    ({ gpu := some "" } : Args).gpu = some ""
    ∧ (scriptMain env0 { gpu := some "" }).cuda = none
    ∧ (scriptMain env0 { gpu := some "" }).outcome = .training none := by
  refine ⟨rfl, by decide, by decide⟩

/-! ## Theorems for claim C9 -/

/-- **C9.** The assertion `assert img is not None` can never fail: when
the read returns `None` the preceding `.astype` call raises
`AttributeError` first, and a successful `.astype` never yields `None`;
consequently no script run ever aborts with that assertion. -/
theorem img_not_none_assert_unreachable :
    (∀ (aF : Nat → Nat) (v : Option Nat), v = none →
        pyAstype aF v = .error (.attributeError "NoneType astype"))
    ∧ (∀ (aF : Nat → Nat) (v img : Option Nat),
        pyAstype aF v = .ok img → img.isNone = false)
    ∧ (∀ env args, (scriptMain env args).outcome
        ≠ .aborted (.assertionError "img is not None")) := by
  refine ⟨?_, ?_, ?_⟩
  · intro aF v hv; subst hv; rfl
  · intro aF v img h; exact pyAstype_ok_not_none h
  · intro env args hcon
    cases hb : parseDorefa args.dorefa with
    | none =>
      unfold scriptMain at hcon
      rw [hb] at hcon
      simp at hcon
    | some bits =>
      rw [scriptMain_eq_of_parse hb] at hcon
      have hcon2 : (scriptMainCore env args).2
          = .aborted (.assertionError "img is not None") := hcon
      unfold scriptMainCore at hcon2
      split at hcon2
      · split at hcon2
        next => exact absurd hcon2 (by decide)
        next load heq =>
          split at hcon2
          · split at hcon2
            · split at hcon2
              next evs e heq2 =>
                injection hcon2 with he
                rcases runImageLoop_error_site heq2 with h | h | h <;>
                  rw [he] at h <;> exact absurd h (by decide)
              next evs heq2 => simp at hcon2
            · exact absurd hcon2 (by decide)
          · exact absurd hcon2 (by decide)
      · exact absurd hcon2 (by simp)

/-- Witness for C9: `.astype` on a failed (`None`) read raises
`AttributeError`. -/
theorem img_not_none_assert_unreachable_witness :
    pyAstype (fun m => m) none = .error (.attributeError "NoneType astype") :=
  img_not_none_assert_unreachable.1 (fun m => m) none rfl

/-! ## Theorems for claim C4 -/

/-- An in-range Python index succeeds and agrees with `getD`. -/
theorem pyIndex_eq_getD {α : Type} {l : List α} {i : Nat} (h : i < l.length) (d : α) :
    pyIndex l i = .ok (l.getD i d) := by
  unfold pyIndex
  rw [List.getElem?_eq_getElem h, List.getD_eq_getElem l d h]

/-- When every index is in range, the dump loop writes one
`dump/<name>.dat` file per pair, holding `outputs[i+1]`. -/
theorem layerDumpLoop_ok (outputs : List Batch) (pairs : List (Nat × String))
    (h : ∀ p ∈ pairs, p.1 + 1 < outputs.length) :
    layerDumpLoop outputs pairs
      = .ok (pairs.map (fun p =>
          Event.dumpFloat ("dump/" ++ p.2 ++ ".dat") (outputs.getD (p.1 + 1) []))) := by
  induction pairs with
  | nil => rfl
  | cons p rest ih =>
    obtain ⟨i, name⟩ := p
    have hi : i + 1 < outputs.length := h (i, name) (List.mem_cons_self _ _)
    unfold layerDumpLoop
    rw [pyIndex_eq_getD hi [], ih (fun q hq => h q (List.mem_cons_of_mem _ hq))]
    rfl

/-- **C4.** In inference mode, for every image that is read successfully,
the iteration writes one `dump/<name>.dat` file for each of the 17
intermediate layer names (in the listed order), the file of the `i`-th
name holding predictor output `i+1`; and the preprocessed input is dumped
to `./dump/input_sim.dat` (hex) and `./dump/input.dat` (int) — the paths
`dump/input_sim.dat` and `dump/input.dat` up to the `./` prefix — before
the prediction, which precedes all per-layer dumps. -/
theorem inference_dump_files (env : Env) (f : String) (m0 : Nat)
    (hfile : env.isFile f = true)
    (hread : env.imread f = some m0)
    (hlen : (env.predict (preprocessed env m0)).length = 18)
    (hbatch : 0 < ((env.predict (preprocessed env m0)).getD 0 []).length) :
    inter_layers.length = 17
    ∧ inter_layers = ["conv0", "bn0", "active0", "pool0", "conv1", "bn1",
        "active1", "pool1", "conv2", "conv3", "conv4", "pool4", "fc0",
        "fc0bn", "fc0active", "fc1", "fct"]
    ∧ stripDotSlash "./dump/input_sim.dat" = "dump/input_sim.dat"
    ∧ stripDotSlash "./dump/input.dat" = "dump/input.dat"
    ∧ processFile env f =
        .ok (inputDumpEvents f (preprocessed env m0)
          ++ (List.enum inter_layers).map (fun p =>
                Event.dumpFloat ("dump/" ++ p.2 ++ ".dat")
                  ((env.predict (preprocessed env m0)).getD (p.1 + 1) []))
          ++ [Event.printResult f (printedPairs env.words
                (((env.predict (preprocessed env m0)).getD 0 []).getD 0 []))]) := by
  refine ⟨by decide, by decide, by decide, by decide, ?_⟩
  have hboundN : ∀ p ∈ List.enum inter_layers, p.1 + 1 < 18 := by decide
  have hbound : ∀ p ∈ List.enum inter_layers,
      p.1 + 1 < (env.predict (preprocessed env m0)).length := by
    intro p hp
    rw [hlen]
    exact hboundN p hp
  have hast : pyAstype env.astypeF (env.imread f) = .ok (some (env.astypeF m0)) := by
    rw [hread]
    rfl
  unfold processFile
  rw [if_pos hfile]
  simp only [hast, Option.isNone_some, Bool.false_eq_true, if_false, Option.getD_some]
  show postPredict env f (preprocessed env m0) = _
  have h0 : pyIndex (env.predict (preprocessed env m0)) 0
      = .ok ((env.predict (preprocessed env m0)).getD 0 []) :=
    pyIndex_eq_getD (by rw [hlen]; omega) []
  have h1 : pyIndex ((env.predict (preprocessed env m0)).getD 0 []) 0
      = .ok (((env.predict (preprocessed env m0)).getD 0 []).getD 0 []) :=
    pyIndex_eq_getD hbatch []
  unfold postPredict
  simp only [layerDumpLoop_ok _ _ hbound, h0, h1]

/-! ## Theorems for claim C10 -/

/-- `argsort` returns a permutation of all indices. -/
theorem npArgsort_perm (xs : List ℚ) :
    List.Perm (npArgsort xs) (List.range xs.length) :=
  List.perm_insertionSort _ _

/-- `argsort` sorts the indices by ascending value. -/
theorem npArgsort_sorted (xs : List ℚ) :
    List.Sorted (argsortRel xs) (npArgsort xs) :=
  List.sorted_insertionSort _ _

/-- **C10.** The printed prediction list pairs exactly 10 distinct class
indices with their synset words and probabilities: taking the last 10
entries of the ascending argsort and reversing them yields 10 in-range
indices ordered by non-increasing probability, every excluded index having
probability at most that of every included one. -/
theorem top_ten_highest (xs : List ℚ) (h10 : 10 ≤ xs.length) :
    (topTen xs).length = 10
    ∧ (topTen xs).Nodup
    ∧ (∀ i, i ∈ topTen xs → i < xs.length)
    ∧ List.Pairwise (fun i j => xs.getD j 0 ≤ xs.getD i 0) (topTen xs)
    ∧ (∀ j, j < xs.length → j ∉ topTen xs →
        ∀ i, i ∈ topTen xs → xs.getD j 0 ≤ xs.getD i 0)
    ∧ (∀ words, printedPairs words xs
        = (topTen xs).map (fun i => (words.getD i "", xs.getD i 0))) := by
  have hperm := npArgsort_perm xs
  have hsorted := npArgsort_sorted xs
  have hlen : (npArgsort xs).length = xs.length := by
    rw [hperm.length_eq, List.length_range]
  have hlen10 : (topTen xs).length = 10 := by
    unfold topTen pyLastTen
    rw [List.length_reverse, List.length_drop, hlen]
    omega
  have hnodup_arg : (npArgsort xs).Nodup := hperm.nodup_iff.mpr (List.nodup_range _)
  have hnodup : (topTen xs).Nodup := by
    unfold topTen pyLastTen
    rw [List.nodup_reverse]
    exact hnodup_arg.sublist (List.drop_sublist _ _)
  have hmem : ∀ i, i ∈ topTen xs → i < xs.length := by
    intro i hi
    unfold topTen pyLastTen at hi
    rw [List.mem_reverse] at hi
    have : i ∈ npArgsort xs := (List.drop_sublist _ _).subset hi
    exact List.mem_range.mp (hperm.mem_iff.mp this)
  have hpw : List.Pairwise (fun i j => xs.getD j 0 ≤ xs.getD i 0) (topTen xs) := by
    unfold topTen pyLastTen
    rw [List.pairwise_reverse]
    exact List.Pairwise.sublist (List.drop_sublist _ _) hsorted
  have hcross : ∀ j, j < xs.length → j ∉ topTen xs →
      ∀ i, i ∈ topTen xs → xs.getD j 0 ≤ xs.getD i 0 := by
    intro j hj hjn i hi
    have hj_arg : j ∈ npArgsort xs := hperm.mem_iff.mpr (List.mem_range.mpr hj)
    have hi_drop : i ∈ (npArgsort xs).drop ((npArgsort xs).length - 10) := by
      unfold topTen pyLastTen at hi
      exact List.mem_reverse.mp hi
    have hjn_drop : j ∉ (npArgsort xs).drop ((npArgsort xs).length - 10) := by
      unfold topTen pyLastTen at hjn
      exact fun hcon => hjn (List.mem_reverse.mpr hcon)
    have hj_take : j ∈ (npArgsort xs).take ((npArgsort xs).length - 10) := by
      have hj_app : j ∈ (npArgsort xs).take ((npArgsort xs).length - 10)
          ++ (npArgsort xs).drop ((npArgsort xs).length - 10) := by
        rw [List.take_append_drop]
        exact hj_arg
      rcases List.mem_append.mp hj_app with h | h
      · exact h
      · exact absurd h hjn_drop
    have hsorted_app : List.Pairwise (argsortRel xs)
        ((npArgsort xs).take ((npArgsort xs).length - 10)
          ++ (npArgsort xs).drop ((npArgsort xs).length - 10)) := by
      rw [List.take_append_drop]
      exact hsorted
    exact (List.pairwise_append.mp hsorted_app).2.2 j hj_take i hi_drop
  exact ⟨hlen10, hnodup, hmem, hpw, hcross, fun words => rfl⟩

/-- A concrete probability vector with 11 entries. -/
def ratList : List ℚ := [3, 1, 4, 1, 5, 9, 2, 6, 5, 3, 5]

/-- Witness for C10 at a concrete 11-entry vector. -/
theorem top_ten_highest_witness :
    10 ≤ ratList.length
    ∧ ((topTen ratList).length = 10
      ∧ (topTen ratList).Nodup
      ∧ (∀ i, i ∈ topTen ratList → i < ratList.length)
      ∧ List.Pairwise (fun i j => ratList.getD j 0 ≤ ratList.getD i 0) (topTen ratList)
      ∧ (∀ j, j < ratList.length → j ∉ topTen ratList →
          ∀ i, i ∈ topTen ratList → ratList.getD j 0 ≤ ratList.getD i 0)
      ∧ (∀ words, printedPairs words ratList
          = (topTen ratList).map (fun i => (words.getD i "", ratList.getD i 0)))) :=
  ⟨by decide, top_ten_highest ratList (by decide)⟩

/-- Witness for C4: the dump-file equation at the concrete environment. -/
theorem inference_dump_files_witness :
    processFile env0 "cat.jpg" =
      .ok (inputDumpEvents "cat.jpg" (preprocessed env0 0)
        ++ (List.enum inter_layers).map (fun p =>
              Event.dumpFloat ("dump/" ++ p.2 ++ ".dat")
                ((env0.predict (preprocessed env0 0)).getD (p.1 + 1) []))
        ++ [Event.printResult "cat.jpg" (printedPairs env0.words
              (((env0.predict (preprocessed env0 0)).getD 0 []).getD 0 []))]) :=
  (inference_dump_files env0 "cat.jpg" 0 rfl rfl (by decide) (by decide)).2.2.2.2
